import Mathlib

/-!
# Valorant-Fantasy roster front end: shallow embedding

Shallow embedding of the roster-management logic of the Valorant-Fantasy
repository (TypeScript/React front end).  Monetary amounts and fantasy
points are JavaScript numbers in the source; they are modelled as `Rat`,
which is exact for every arithmetic operation the embedded code performs
(addition and subtraction).

Embedded source locations:
* `lib/types.ts` — the `Player`, `RosterEntry`, `LeagueMember` records;
* `app/dashboard/database/players/page.tsx` (`RosterView`) — `ROSTER_SLOTS`,
  `handleBuyPlayer`, `handleSellPlayer`, `rosterValue`, the scout-dialog
  candidate filters, the error toasts;
* the league detail page (`LeagueDetailPage`) — `handleBuyPlayer` /
  `handleSellPlayer` with explicit budget/roster state updates;
* `lib/api.ts` (`ApiClient.setupInterceptors`) — the response error
  interceptor that rewrites `error.message`;
* `league-rankings.tsx` (`LeagueRankings`) — the sorted leaderboard rows.
-/

namespace ValorantFantasy

/-! ## Data model (lib/types.ts) -/

/-- Record `Player` from `lib/types.ts` (fields used by the roster code). -/
structure Player where
  id : Nat
  name : String
  role : String
  region : String
  current_price : Rat
  points : Rat
deriving DecidableEq, Repr

/-- Record `RosterEntry` from `lib/types.ts`. -/
structure RosterEntry where
  id : Nat
  league_member_id : Nat
  player_id : Nat
  is_starter : Bool
  is_bench : Bool
  role_position : String
deriving DecidableEq, Repr

/-- Record `LeagueMember` from `lib/types.ts` (fields used by the embedded code). -/
structure LeagueMember where
  id : Nat
  league_id : Nat
  user_id : Nat
  team_name : String
  budget : Rat
  total_points : Rat
  team_value : Rat
deriving DecidableEq, Repr

/-- The `RosterSlot` interface from the roster pages. -/
structure RosterSlot where
  id : String
  role : String
  label : String
  isStarter : Bool
deriving DecidableEq, Repr

/-- The `ROSTER_SLOTS` constant, identical in `RosterView` and in the league
detail page. -/
def ROSTER_SLOTS : List RosterSlot :=
  [ { id := "d1", role := "Duelist", label := "Duelist 1", isStarter := true },
    { id := "d2", role := "Duelist", label := "Duelist 2", isStarter := true },
    { id := "c1", role := "Controller", label := "Controller 1", isStarter := true },
    { id := "c2", role := "Controller", label := "Controller 2", isStarter := true },
    { id := "i1", role := "Initiator", label := "Initiator 1", isStarter := true },
    { id := "i2", role := "Initiator", label := "Initiator 2", isStarter := true },
    { id := "s1", role := "Sentinel", label := "Sentinel 1", isStarter := true },
    { id := "s2", role := "Sentinel", label := "Sentinel 2", isStarter := true },
    { id := "b1", role := "Flex", label := "Bench 1", isStarter := false },
    { id := "b2", role := "Flex", label := "Bench 2", isStarter := false },
    { id := "b3", role := "Flex", label := "Bench 3", isStarter := false } ]

/-! ## Buy / sell transitions (league detail page `handleBuyPlayer`,
`handleSellPlayer`) -/

/-- The member-side state the league detail page keeps in React state:
`myMemberInfo.id`, `myMemberInfo.budget` and `myRoster`. -/
structure MemberState where
  memberId : Nat
  budget : Rat
  roster : List RosterEntry
deriving DecidableEq, Repr

/-- The payload of `leaguesApi.addPlayerToRoster` as built in the league
detail page's `handleBuyPlayer`. -/
structure BuyRequest where
  league_member_id : Nat
  player_id : Nat
  is_starter : Bool
  is_bench : Bool
  role_position : String
deriving DecidableEq, Repr

/-- Result of a `handleBuyPlayer` run: the updated client state, the request
issued to the backend (if any), and the error toast shown (if any). -/
structure BuyResult where
  state : MemberState
  request : Option BuyRequest
  errorToast : Option String
deriving DecidableEq, Repr

/-- Function `handleBuyPlayer` from the league detail page (success path of the
awaited request; `serverEntry` is the `RosterEntry` the backend returns).
Source: guard `player.current_price > myMemberInfo.budget` shows the
"Insufficient budget!" toast and returns; otherwise the add-to-roster request
is issued, `newBudget = budget - player.current_price`, and the returned
entry is appended to the roster. -/
def handleBuyPlayer (st : MemberState) (slot : RosterSlot) (player : Player)
    (serverEntry : RosterEntry) : BuyResult :=
  if player.current_price > st.budget then
    { state := st, request := none, errorToast := some "Insufficient budget!" }
  else
    { state :=
        { memberId := st.memberId,
          budget := st.budget - player.current_price,
          roster := st.roster ++ [serverEntry] },
      request :=
        some { league_member_id := st.memberId,
               player_id := player.id,
               is_starter := slot.isStarter,
               is_bench := !slot.isStarter,
               role_position := slot.label },
      errorToast := none }

/-- Result of a `handleSellPlayer` run: updated client state and the roster
id sent to `leaguesApi.removePlayerFromRoster` (if a request was issued). -/
structure SellResult where
  state : MemberState
  request : Option Nat
deriving DecidableEq, Repr

/-- Function `handleSellPlayer` from the league detail page (success path of the
awaited request).  Source: look up the entry by `rosterId` in `myRoster`
(bail out when absent), look the player up in `allPlayers`, issue the remove
request, drop the entry from the roster, and when the player was found set
`newBudget = budget + player.current_price`. -/
def handleSellPlayer (st : MemberState) (allPlayers : List Player)
    (rosterId : Nat) : SellResult :=
  match st.roster.find? (fun r => r.id == rosterId) with
  | none => { state := st, request := none }
  | some entry =>
    let player? := allPlayers.find? (fun p => p.id == entry.player_id)
    let newRoster := st.roster.filter (fun r => !(r.id == rosterId))
    match player? with
    | some player =>
        { state :=
            { memberId := st.memberId,
              budget := st.budget + player.current_price,
              roster := newRoster },
          request := some rosterId }
    | none =>
        { state := { memberId := st.memberId, budget := st.budget, roster := newRoster },
          request := some rosterId }

/-! ## Concrete sample data for witnesses -/

/-- Sample member state: budget 100.0M, empty roster. -/
def memberSt : MemberState := { memberId := 7, budget := 100, roster := [] }

/-- Sample Duelist priced above the sample budget. -/
def duelist101 : Player :=
  { id := 1, name := "Aspas", role := "Duelist", region := "Americas",
    current_price := 101, points := 120 }

/-- Sample Duelist priced within the sample budget. -/
def duelist50 : Player :=
  { id := 2, name := "Derke", role := "Duelist", region := "EMEA",
    current_price := 50, points := 110 }

/-- The "Bench 1" bench slot. -/
def benchSlot1 : RosterSlot :=
  { id := "b1", role := "Flex", label := "Bench 1", isStarter := false }

/-- Sample player with the literal role "Flex". -/
def flexPlayer : Player :=
  { id := 3, name := "Boaster", role := "Flex", region := "EMEA",
    current_price := 20, points := 80 }

/-- The "Duelist 1" starter slot. -/
def slotD1 : RosterSlot :=
  { id := "d1", role := "Duelist", label := "Duelist 1", isStarter := true }

/-- Roster entry the backend would return for `duelist50` in "Duelist 1". -/
def soldEntry : RosterEntry :=
  { id := 900, league_member_id := 7, player_id := 2, is_starter := true,
    is_bench := false, role_position := "Duelist 1" }

/-- Sample member state holding `soldEntry` after having paid 50 for it. -/
def memberStWith : MemberState :=
  { memberId := 7, budget := 50, roster := [soldEntry] }

/-! ## Scout dialog candidate list (`RosterView`, players page) -/

/-- JS `String.prototype.toLowerCase`, modelled character by character. -/
def strToLower (s : String) : String :=
  String.mk (s.toList.map Char.toLower)

/-- JS `String.prototype.includes`: `strIncludes s q` holds when `q` occurs
as a contiguous substring of `s`. -/
def strIncludes (s q : String) : Bool :=
  (List.range (s.length + 1)).any (fun i => q.toList.isPrefixOf (s.toList.drop i))

/-- The three chained `.filter` calls of the scout dialog: same role as the
slot, name matching the search query (case-insensitively), and not already
on the roster. -/
def scoutCandidates (slot : RosterSlot) (roster : List RosterEntry)
    (allPlayers : List Player) (searchQuery : String) : List Player :=
  ((allPlayers.filter (fun p => p.role == slot.role)).filter
      (fun p => strIncludes (strToLower p.name) (strToLower searchQuery))).filter
    (fun p => !(roster.any (fun r => r.player_id == p.id)))

/-- The scout dialog's sort key (`scoutSort.key`). -/
inductive ScoutKey where
  | points
  | price
deriving DecidableEq, Repr

/-- The numeric field the scout sort compares. -/
def scoutVal (k : ScoutKey) (p : Player) : Rat :=
  match k with
  | .points => p.points
  | .price => p.current_price

/-- Order imposed by the scout sort comparator
`asc ? aValue - bValue : bValue - aValue`. -/
def scoutRel (k : ScoutKey) (asc : Bool) : Player → Player → Prop :=
  fun a b =>
    if asc then scoutVal k a ≤ scoutVal k b else scoutVal k b ≤ scoutVal k a

instance (k : ScoutKey) (asc : Bool) : DecidableRel (scoutRel k asc) :=
  fun a b =>
    inferInstanceAs (Decidable
      (if asc then scoutVal k a ≤ scoutVal k b
       else scoutVal k b ≤ scoutVal k a))

/-- The list of players the scout dialog offers for a slot: the filtered
candidates, sorted by the selected key and direction. -/
def scoutList (slot : RosterSlot) (roster : List RosterEntry)
    (allPlayers : List Player) (searchQuery : String) (k : ScoutKey)
    (asc : Bool) : List Player :=
  List.insertionSort (scoutRel k asc)
    (scoutCandidates slot roster allPlayers searchQuery)

/-! ## Roster net worth (`rosterValue` in `RosterView`) -/

/-- Contribution of one roster entry: `p?.current_price || 0` after
`allPlayers.find`. -/
def entryPrice (allPlayers : List Player) (entry : RosterEntry) : Rat :=
  match allPlayers.find? (fun p => p.id == entry.player_id) with
  | some p => p.current_price
  | none => 0

/-- Value `rosterValue`: the `reduce` that accumulates the roster's net worth. -/
def rosterValue (roster : List RosterEntry) (allPlayers : List Player) : Rat :=
  roster.foldl (fun sum entry => sum + entryPrice allPlayers entry) 0

/-- Accumulating `entryPrice` by `foldl` starting from `a` equals `a` plus
the sum of the mapped prices. -/
lemma foldl_add_entryPrice (allPlayers : List Player) :
    ∀ (l : List RosterEntry) (a : Rat),
      l.foldl (fun sum entry => sum + entryPrice allPlayers entry) a
        = a + (l.map (entryPrice allPlayers)).sum := by
  intro l
  induction l with
  | nil => intro a; simp
  | cons x xs ih =>
      intro a
      simp only [List.foldl_cons, List.map_cons, List.sum_cons, ih]
      ring

/-! ## Error toasts (`lib/api.ts` interceptor and `RosterView` catch blocks) -/

/-- The relevant parts of `error.response?.data` for a failed request:
`.error?.message` and `.detail`. -/
structure BackendErrorBody where
  errMessage : Option String
  detail : Option String
deriving DecidableEq, Repr

/-- An Axios error as the interceptor sees it: optional response body plus
the transport-level `error.message`. -/
structure AxiosErrorModel where
  responseData : Option BackendErrorBody
  message : String
deriving DecidableEq, Repr

/-- JS `a || b` where `a` is a string-or-undefined and `b` a string: `b` when
`a` is undefined or empty (falsy), else `a`. -/
def truthyOr (a : Option String) (dflt : String) : String :=
  match a with
  | some s => if s = "" then dflt else s
  | none => dflt

/-- The `ApiClient.setupInterceptors` rejection handler: the message it writes
back into `error.message`, namely
`errorData?.error?.message || errorData?.detail || error.message`. -/
def interceptedMessage (e : AxiosErrorModel) : String :=
  truthyOr (e.responseData.bind BackendErrorBody.errMessage)
    (truthyOr (e.responseData.bind BackendErrorBody.detail) e.message)

/-- The interceptor mutates the error object before rethrowing it. -/
def applyInterceptor (e : AxiosErrorModel) : AxiosErrorModel :=
  { e with message := interceptedMessage e }

/-- The `RosterView.handleBuyPlayer` catch block:
`toast.error(error.message || "Failed to sign player")`, where the error has
passed through the interceptor. -/
def displayedBuyError (e : AxiosErrorModel) : String :=
  truthyOr (some (applyInterceptor e).message) "Failed to sign player"

/-- The `RosterView.handleSellPlayer` catch block:
`toast.error("Failed to release player")`, unconditionally. -/
def displayedSellError (_ : AxiosErrorModel) : String :=
  "Failed to release player"

/-- A failed sell whose backend body carries a specific message. -/
def sampleSellError : AxiosErrorModel :=
  { responseData :=
      some { errMessage := some "Roster entry not found", detail := none },
    message := "Request failed with status code 404" }

/-- A failed buy whose backend body carries a specific message. -/
def sampleBuyError : AxiosErrorModel :=
  { responseData :=
      some { errMessage := some "Insufficient budget", detail := none },
    message := "Request failed with status code 400" }

/-! ## League leaderboard (`LeagueRankings`) -/

/-- The comparator `(a, b) => b.total_points - a.total_points` orders `a`
before `b` exactly when `b.total_points <= a.total_points`. -/
def membersRel : LeagueMember → LeagueMember → Prop :=
  fun a b => b.total_points ≤ a.total_points

instance : DecidableRel membersRel :=
  fun a b => inferInstanceAs (Decidable (b.total_points ≤ a.total_points))

instance : IsTotal LeagueMember membersRel :=
  ⟨fun a b => le_total b.total_points a.total_points⟩

instance : IsTrans LeagueMember membersRel :=
  ⟨fun _ _ _ hab hbc => le_trans hbc hab⟩

/-- Definition `sortedMembers = [...members].sort((a, b) => b.total_points -
a.total_points)`: the input list is copied, then sorted by non-increasing
`total_points` (the copy leaves `members` itself unchanged). -/
def sortedMembers (members : List LeagueMember) : List LeagueMember :=
  List.insertionSort membersRel members

/-- The leaderboard rows: `sortedMembers.map((member, index) => ...)` with
the displayed position `index + 1`. -/
def rankingRows (members : List LeagueMember) : List (Nat × LeagueMember) :=
  (sortedMembers members).enum.map (fun x => (x.1 + 1, x.2))

end ValorantFantasy

namespace ValorantFantasy

/-- Lemma: `List.find?` returns the appended element when no earlier element has
its id. -/
lemma find?_append_last (l : List RosterEntry) (e : RosterEntry)
    (h : ∀ r ∈ l, r.id ≠ e.id) :
    (l ++ [e]).find? (fun r => r.id == e.id) = some e := by
  induction l with
  | nil => simp
  | cons a l ih =>
      have ha : ¬ ((fun r : RosterEntry => r.id == e.id) a = true) := by
        simp only [beq_iff_eq]
        exact h a (List.mem_cons_self a l)
      have step : (a :: (l ++ [e])).find? (fun r => r.id == e.id)
          = (l ++ [e]).find? (fun r => r.id == e.id) :=
        List.find?_cons_of_neg _ ha
      rw [List.cons_append, step]
      exact ih (fun r hr => h r (List.mem_cons_of_mem a hr))

/-- Second components of the 1-shifted enumeration are the list itself. -/
lemma enum_shift_snd (l : List LeagueMember) :
    (l.enum.map (fun x => (x.1 + 1, x.2))).map Prod.snd = l := by
  rw [List.map_map]
  have h : (Prod.snd ∘ fun x : Nat × LeagueMember => (x.1 + 1, x.2))
      = Prod.snd := by
    funext x; rfl
  rw [h, List.enum_map_snd]

/-- First components of the 1-shifted enumeration are `1, 2, …, length`. -/
lemma enum_shift_fst (l : List LeagueMember) :
    (l.enum.map (fun x => (x.1 + 1, x.2))).map Prod.fst
      = List.range' 1 l.length := by
  rw [List.map_map]
  have h : (Prod.fst ∘ fun x : Nat × LeagueMember => (x.1 + 1, x.2))
      = (fun n => 1 + n) ∘ Prod.fst := by
    funext x
    simp [Nat.add_comm]
  rw [h, ← List.map_map, List.enum_map_fst, ← List.range'_eq_map_range]

/-- C1: a buy attempt with `player.current_price > member.budget` is rejected
with the insufficient-budget toast, no roster-add request is issued, and
budget and roster are unchanged; with `player.current_price <= member.budget`
the purchase request is issued (and no error is shown). -/
theorem handleBuyPlayer_budget_guard (st : MemberState) (slot : RosterSlot)
    (p : Player) (e : RosterEntry) :
    (st.budget < p.current_price →
        handleBuyPlayer st slot p e =
          { state := st, request := none,
            errorToast := some "Insufficient budget!" }) ∧
    (p.current_price ≤ st.budget →
        (handleBuyPlayer st slot p e).errorToast = none ∧
        (handleBuyPlayer st slot p e).request =
          some { league_member_id := st.memberId, player_id := p.id,
                 is_starter := slot.isStarter, is_bench := !slot.isStarter,
                 role_position := slot.label }) := by
  constructor
  · intro h
    simp [handleBuyPlayer, h]
  · intro h
    have h' : ¬ p.current_price > st.budget := not_lt.mpr h
    simp [handleBuyPlayer, h']

/-- Witness for C1: budget 100, price 101 is rejected with unchanged state;
budget 100, price 50 issues the request. -/
theorem handleBuyPlayer_budget_guard_witness :
    handleBuyPlayer memberSt slotD1 duelist101 soldEntry =
      { state := memberSt, request := none,
        errorToast := some "Insufficient budget!" } ∧
    (handleBuyPlayer memberSt slotD1 duelist50 soldEntry).request =
      some { league_member_id := 7, player_id := 2, is_starter := true,
             is_bench := false, role_position := "Duelist 1" } :=
  ⟨(handleBuyPlayer_budget_guard memberSt slotD1 duelist101 soldEntry).1
      (by decide),
   ((handleBuyPlayer_budget_guard memberSt slotD1 duelist50 soldEntry).2
      (by decide)).2⟩

/-- C2: a successful buy debits the budget by exactly `current_price`, and
under `current_price <= budget` the new budget is non-negative. -/
theorem handleBuyPlayer_debits_price (st : MemberState) (slot : RosterSlot)
    (p : Player) (e : RosterEntry) (h : p.current_price ≤ st.budget) :
    (handleBuyPlayer st slot p e).state.budget = st.budget - p.current_price ∧
    0 ≤ (handleBuyPlayer st slot p e).state.budget := by
  have h' : ¬ p.current_price > st.budget := not_lt.mpr h
  refine ⟨by simp [handleBuyPlayer, h'], ?_⟩
  simp only [handleBuyPlayer, h', if_false, gt_iff_lt, if_neg h']
  exact sub_nonneg.mpr h

/-- Witness for C2: buying the 50M Duelist on a 100M budget leaves 50M. -/
theorem handleBuyPlayer_debits_price_witness :
    (handleBuyPlayer memberSt slotD1 duelist50 soldEntry).state.budget = 50 ∧
    0 ≤ (handleBuyPlayer memberSt slotD1 duelist50 soldEntry).state.budget := by
  have h := handleBuyPlayer_debits_price memberSt slotD1 duelist50 soldEntry
    (by decide)
  refine ⟨?_, h.2⟩
  rw [h.1]
  norm_num [memberSt, duelist50]

/-- C3: a sell credits the budget by the sold player's `current_price` at the
time of removal; hence buying and then selling the same player, with the
price unchanged in between, restores the original budget. -/
theorem handleSellPlayer_credits_current_price (st : MemberState)
    (players : List Player) :
    (∀ (rid : Nat) (entry : RosterEntry) (pl : Player),
        st.roster.find? (fun r => r.id == rid) = some entry →
        players.find? (fun p => p.id == entry.player_id) = some pl →
        (handleSellPlayer st players rid).state.budget =
          st.budget + pl.current_price) ∧
    (∀ (slot : RosterSlot) (p : Player) (e : RosterEntry),
        p.current_price ≤ st.budget →
        e.player_id = p.id →
        (∀ r ∈ st.roster, r.id ≠ e.id) →
        players.find? (fun q => q.id == p.id) = some p →
        (handleSellPlayer (handleBuyPlayer st slot p e).state players
            e.id).state.budget = st.budget) := by
  constructor
  · intro rid entry pl hfind hpl
    simp [handleSellPlayer, hfind, hpl]
  · intro slot p e hb hid hfresh hp
    have h' : ¬ p.current_price > st.budget := not_lt.mpr hb
    have hbuy : (handleBuyPlayer st slot p e).state =
        { memberId := st.memberId, budget := st.budget - p.current_price,
          roster := st.roster ++ [e] } := by
      simp [handleBuyPlayer, h']
    rw [hbuy]
    have hfind : (st.roster ++ [e]).find? (fun r => r.id == e.id) = some e :=
      find?_append_last st.roster e hfresh
    simp [handleSellPlayer, hfind, hid, hp]

/-- Witness for C3: selling the 50M Duelist credits 50M back (budget 50 →
100), and a buy at 100M budget followed by the sell restores 100M. -/
theorem handleSellPlayer_credits_current_price_witness :
    (handleSellPlayer memberStWith [duelist50] 900).state.budget = 100 ∧
    (handleSellPlayer (handleBuyPlayer memberSt slotD1 duelist50 soldEntry).state
        [duelist50] 900).state.budget = 100 := by
  constructor
  · have h := (handleSellPlayer_credits_current_price memberStWith
      [duelist50]).1 900 soldEntry duelist50 rfl rfl
    rw [h]
    norm_num [memberStWith, duelist50]
  · exact (handleSellPlayer_credits_current_price memberSt [duelist50]).2
      slotD1 duelist50 soldEntry (by decide) rfl (by decide) rfl

/-- C5: The roster layout is exactly 11 fixed named slots: 8 starters, two per
role for Duelist/Controller/Initiator/Sentinel, plus 3 bench slots; labels are
pairwise distinct and `isStarter` holds exactly for the 8 starter slots. -/
theorem rosterSlots_layout :
    ROSTER_SLOTS.length = 11 ∧
    (ROSTER_SLOTS.filter (fun s => s.isStarter)).map (fun s => s.label) =
      ["Duelist 1", "Duelist 2", "Controller 1", "Controller 2",
       "Initiator 1", "Initiator 2", "Sentinel 1", "Sentinel 2"] ∧
    (ROSTER_SLOTS.filter (fun s => !s.isStarter)).map (fun s => s.label) =
      ["Bench 1", "Bench 2", "Bench 3"] ∧
    (ROSTER_SLOTS.map (fun s => s.label)).Nodup ∧
    (∀ role ∈ ["Duelist", "Controller", "Initiator", "Sentinel"],
      (ROSTER_SLOTS.filter (fun s => s.isStarter && s.role == role)).length = 2) := by
  refine ⟨rfl, rfl, rfl, by decide, by decide⟩

/-- C4: no purchase candidate offered by the scout dialog is already on the
roster: every player in the scout list has an id different from every roster
entry's `player_id`. -/
theorem scoutList_excludes_rostered (slot : RosterSlot)
    (roster : List RosterEntry) (allPlayers : List Player) (q : String)
    (k : ScoutKey) (asc : Bool) :
    ∀ p ∈ scoutList slot roster allPlayers q k asc,
      ∀ r ∈ roster, r.player_id ≠ p.id := by
  intro p hp r hr heq
  have hp1 : p ∈ scoutCandidates slot roster allPlayers q :=
    (List.mem_insertionSort _).mp hp
  have hp2 := List.of_mem_filter hp1
  have hany : roster.any (fun r => r.player_id == p.id) = true :=
    List.any_eq_true.mpr ⟨r, hr, by simp [heq]⟩
  simp [hany] at hp2

/-- Witness for C4: with `duelist50` already rostered, the scout list offers
`duelist101`, whose id differs from the rostered entry's `player_id`. -/
theorem scoutList_excludes_rostered_witness :
    soldEntry.player_id ≠ duelist101.id :=
  scoutList_excludes_rostered slotD1 [soldEntry] [duelist50, duelist101] ""
    ScoutKey.price false duelist101 (by decide) soldEntry (by decide)

/-- C6: the displayed roster net worth equals the sum, over the roster's
entries, of the matched player's `current_price`, an unmatched entry
contributing 0. -/
theorem rosterValue_spec (roster : List RosterEntry)
    (allPlayers : List Player) :
    rosterValue roster allPlayers
        = (roster.map (entryPrice allPlayers)).sum ∧
    ∀ e : RosterEntry,
      allPlayers.find? (fun p => p.id == e.player_id) = none →
      entryPrice allPlayers e = 0 := by
  constructor
  · unfold rosterValue
    rw [foldl_add_entryPrice]
    simp
  · intro e h
    simp [entryPrice, h]

/-- Witness for C6: a one-entry roster sums to the mapped price, and an
entry with no matching player contributes 0. -/
theorem rosterValue_spec_witness :
    rosterValue [soldEntry] [duelist50]
        = ([soldEntry].map (entryPrice [duelist50])).sum ∧
    entryPrice [] soldEntry = 0 :=
  ⟨(rosterValue_spec [soldEntry] [duelist50]).1,
   (rosterValue_spec [soldEntry] []).2 soldEntry rfl⟩

/-- C7 counterexample: the bench slot "Bench 1" is in the layout, a Duelist
is available and unrostered, yet the bench scout list is empty — a player of
a non-"Flex" role is not offered for a bench slot. -/
theorem benchScout_excludes_duelist :
    benchSlot1 ∈ ROSTER_SLOTS ∧
    benchSlot1.isStarter = false ∧
    scoutList benchSlot1 [] [duelist101] "" ScoutKey.price false = [] ∧
    duelist101.role = "Duelist" := by
  refine ⟨by decide, rfl, by decide, rfl⟩

/-- C7 amended: the scout candidate list of a bench slot is restricted to
players whose role is the literal "Flex" — every offered candidate has role
"Flex". -/
theorem benchScout_only_flex :
    ∀ slot ∈ ROSTER_SLOTS, slot.isStarter = false →
      ∀ (roster : List RosterEntry) (allPlayers : List Player) (q : String)
        (k : ScoutKey) (asc : Bool),
        ∀ p ∈ scoutList slot roster allPlayers q k asc, p.role = "Flex" := by
  intro slot hslot hbench roster allPlayers q k asc p hp
  have hrole : slot.role = "Flex" := by
    have hall : ∀ s ∈ ROSTER_SLOTS, s.isStarter = false → s.role = "Flex" := by
      decide
    exact hall slot hslot hbench
  have hp1 : p ∈ scoutCandidates slot roster allPlayers q :=
    (List.mem_insertionSort _).mp hp
  have hp2 := List.mem_of_mem_filter hp1
  have hp3 := List.mem_of_mem_filter hp2
  have hp4 := List.of_mem_filter hp3
  have : p.role = slot.role := by simpa using hp4
  rw [this, hrole]

/-- Witness for C7 amended: the Flex-role sample player is offered for
"Bench 1" and indeed has role "Flex". -/
theorem benchScout_only_flex_witness : flexPlayer.role = "Flex" :=
  benchScout_only_flex benchSlot1 (by decide) rfl [] [flexPlayer] ""
    ScoutKey.price false flexPlayer (by decide)

/-- C9 counterexample: a failed sell whose backend response carries the
specific message "Roster entry not found" is shown the fixed generic toast
"Failed to release player", not the backend's message. -/
theorem sellError_ignores_backend_message :
    interceptedMessage sampleSellError = "Roster entry not found" ∧
    displayedSellError sampleSellError = "Failed to release player" ∧
    displayedSellError sampleSellError ≠ interceptedMessage sampleSellError := by
  refine ⟨rfl, rfl, by decide⟩

/-- C9 amended: a failed buy in the players page surfaces the backend's
non-empty `error.message` via the interceptor, while a failed sell always
shows the fixed message "Failed to release player". -/
theorem rosterErrorMessages (e : AxiosErrorModel) (b : BackendErrorBody)
    (m : String) (hr : e.responseData = some b) (hm : b.errMessage = some m)
    (hne : m ≠ "") :
    displayedBuyError e = m ∧
    displayedSellError e = "Failed to release player" := by
  refine ⟨?_, rfl⟩
  simp [displayedBuyError, applyInterceptor, interceptedMessage, truthyOr,
    hr, hm, hne]

/-- Witness for C9 amended: a buy failure with backend message
"Insufficient budget" displays exactly that message; the sell toast stays
generic. -/
theorem rosterErrorMessages_witness :
    displayedBuyError sampleBuyError = "Insufficient budget" ∧
    displayedSellError sampleBuyError = "Failed to release player" :=
  rosterErrorMessages sampleBuyError
    { errMessage := some "Insufficient budget", detail := none }
    "Insufficient budget" rfl rfl (by decide)

/-- C10: the leaderboard rows are a permutation of the input members, in
non-increasing `total_points` order, the displayed entries being exactly the
sorted members and the displayed positions exactly 1, 2, …, n. -/
theorem leagueRankings_rows (members : List LeagueMember) :
    (sortedMembers members).Perm members ∧
    List.Sorted membersRel (sortedMembers members) ∧
    (rankingRows members).map Prod.snd = sortedMembers members ∧
    (rankingRows members).map Prod.fst = List.range' 1 members.length := by
  refine ⟨List.perm_insertionSort _ _, List.sorted_insertionSort _ _, ?_, ?_⟩
  · exact enum_shift_snd (sortedMembers members)
  · have h := enum_shift_fst (sortedMembers members)
    have hlen : (sortedMembers members).length = members.length := by
      simp [sortedMembers]
    rw [hlen] at h
    exact h

end ValorantFantasy
